import Mathlib

/-
Verification of the ZSTD / QATZSTD block-compression codec layer of
src/Compression/CompressionCodecZSTD.cpp.

The compression engine (libzstd) and the QAT offload library are external
collaborators of this file: their code is not under src/, so they are
modelled abstractly as a structure of engine operations (ZstdEngine)
together with a contract (ZstdEngine.Sound) stating the engine guarantees
the spec relies on (output never exceeds the destination capacity,
compression into a compressBound-sized buffer succeeds, and decompressing
a compressed block with the exact original size restores the input).
Everything else -- the codec record, the compress/decompress wrappers, the
registry constructor closures with their argument validation, the lazy
QAT initialization state machine, and the destructor -- is translated
directly from the source file.  Byte buffers are lists of Nat; the C++
truncations (size_t to UInt32 on the bound, UInt64 to int on codec
arguments) are modelled with explicit mod-2^32 arithmetic.
-/

/-- Conversion of an unsigned 64-bit value to a 32-bit signed integer, the
implicit C++ conversion applied when the UInt64 extracted from a codec
argument literal is assigned to an int variable (modular wrap-around). -/
def toInt32 (v : Nat) : Int :=
  if v % 4294967296 < 2147483648 then ((v % 4294967296 : Nat) : Int)
  else ((v % 4294967296 : Nat) : Int) - 4294967296

/-- The error codes thrown by the codec layer (namespace ErrorCodes in the
source file). -/
inductive ErrorCode
  | CANNOT_COMPRESS
  | CANNOT_DECOMPRESS
  | ILLEGAL_SYNTAX_FOR_CODEC_TYPE
  | ILLEGAL_CODEC_PARAMETER
deriving DecidableEq

/-- Modelled from the spec: the compression engine (libzstd), "treated as an
opaque, trusted engine with a documented API"; its code is not under src/.
compress2 models ZSTD_compress2 on a context already configured with
(sequence-producer registered?, compressionLevel, enableLongDistanceMatching,
windowLog), given a destination capacity; it returns the compressed bytes or
an engine error code.  decompress models ZSTD_decompress with a destination
capacity.  windowLogBounds models ZSTD_cParam_getBounds(ZSTD_c_windowLog):
either an error code (ZSTD_isError on the bounds' error field) or the pair
(lowerBound, upperBound).  maxCLevel models ZSTD_maxCLevel(). -/
structure ZstdEngine where
  compressBound : Nat → Nat
  maxCLevel : Int
  compress2 : Bool → Int → Bool → Int → Nat → List Nat → Except Nat (List Nat)
  decompress : Nat → List Nat → Except Nat (List Nat)
  windowLogBounds : Except Nat (Int × Int)

/-- Modelled from the spec: the documented guarantees of the engine that the
codec layer relies on -- a successful compression writes at most the given
destination capacity, compression into a compressBound-sized destination
always succeeds, and decompressing a compressed block with the exact
original size restores the original bytes (this also covers the
hardware-offload path: with the engine-level fallback enabled, a registered
sequence producer affects performance only, never validity). -/
structure ZstdEngine.Sound (E : ZstdEngine) : Prop where
  compress_le_cap : ∀ sp lvl ldm wlog cap src out,
    E.compress2 sp lvl ldm wlog cap src = .ok out → out.length ≤ cap
  compress_total : ∀ sp lvl ldm wlog src,
    ∃ out, E.compress2 sp lvl ldm wlog (E.compressBound src.length) src = .ok out
  round_trip : ∀ sp lvl ldm wlog cap src out,
    E.compress2 sp lvl ldm wlog cap src = .ok out →
    E.decompress src.length out = .ok src

/-- Modelled from the spec: the engine's documented worst-case expansion
formula for a given source size (the ZSTD_COMPRESSBOUND macro of the
engine's public header, which is not under src/). -/
def ZSTD_COMPRESSBOUND (srcSize : Nat) : Nat :=
  srcSize + srcSize / 256 +
    (if srcSize < 131072 then (131072 - srcSize) / 2048 else 0)

/-- Modelled from the spec: the fixed one-byte wire tag of the ZSTD codec
kind (CompressionMethodByte::ZSTD of CompressionInfo.h, not under src/). -/
def CompressionMethodByte_ZSTD : Nat := 144

/-- The software codec instance: fields level, enable_long_range and
window_log of class CompressionCodecZSTD. -/
structure CompressionCodecZSTD where
  level : Int
  enable_long_range : Bool
  window_log : Int
deriving DecidableEq

/-- static constexpr ZSTD_DEFAULT_LEVEL = 1. -/
def ZSTD_DEFAULT_LEVEL : Int := 1

/-- static constexpr ZSTD_DEFAULT_LOG_WINDOW = 24. -/
def ZSTD_DEFAULT_LOG_WINDOW : Int := 24

/-- The one-argument constructor CompressionCodecZSTD(level_):
enable_long_range = false, window_log = 0. -/
def CompressionCodecZSTD.mk1 (level_ : Int) : CompressionCodecZSTD :=
  ⟨level_, false, 0⟩

/-- The two-argument constructor CompressionCodecZSTD(level_, window_log_):
enable_long_range = true. -/
def CompressionCodecZSTD.mk2 (level_ window_log_ : Int) : CompressionCodecZSTD :=
  ⟨level_, true, window_log_⟩

/-- getMethodByte(): returns CompressionMethodByte::ZSTD for every instance. -/
def CompressionCodecZSTD.getMethodByte (_c : CompressionCodecZSTD) : Nat :=
  CompressionMethodByte_ZSTD

/-- getMaxCompressedDataSize(uncompressed_size): returns
ZSTD_compressBound(uncompressed_size); the size_t result is implicitly
converted to the UInt32 return type, hence the mod 2^32. -/
def CompressionCodecZSTD.getMaxCompressedDataSize (E : ZstdEngine)
    (_c : CompressionCodecZSTD) (uncompressed_size : Nat) : Nat :=
  E.compressBound uncompressed_size % 4294967296

/-- doCompressData(source, source_size, dest): creates a context, applies
level (and, when enable_long_range, long-distance matching and window_log),
then calls ZSTD_compress2 with destination capacity
ZSTD_compressBound(source_size); throws CANNOT_COMPRESS on an engine
error.  The destination buffer contents are returned as the value. -/
def CompressionCodecZSTD.doCompressData (E : ZstdEngine)
    (c : CompressionCodecZSTD) (source : List Nat) :
    Except ErrorCode (List Nat) :=
  match E.compress2 false c.level c.enable_long_range c.window_log
      (E.compressBound source.length) source with
  | .ok out => .ok out
  | .error _ => .error ErrorCode.CANNOT_COMPRESS

/-- doDecompressData(source, source_size, dest, uncompressed_size): calls
ZSTD_decompress with destination capacity uncompressed_size; throws
CANNOT_DECOMPRESS on an engine error.  It uses no instance state, so it is
modelled without the codec argument; the QATZSTD variant does not override
it and decompresses through this same path. -/
def CompressionCodecZSTD.doDecompressData (E : ZstdEngine)
    (source : List Nat) (uncompressed_size : Nat) :
    Except ErrorCode (List Nat) :=
  match E.decompress uncompressed_size source with
  | .ok out => .ok out
  | .error _ => .error ErrorCode.CANNOT_DECOMPRESS

/-- One codec constructor argument, as handed to the registration closure:
an ASTLiteral carrying a numeric value (read with safeGet as UInt64), or
any other AST node (for which the ASTLiteral cast yields null). -/
inductive Arg
  | lit (v : Nat)
  | nonLiteral
deriving DecidableEq

/-- The constructor closure registered for "ZSTD" in registerCodecZSTD,
translated check for check: empty argument list gives the default level;
more than 2 arguments is ILLEGAL_SYNTAX_FOR_CODEC_TYPE; a non-literal
first argument is ILLEGAL_CODEC_PARAMETER; the level (UInt64 assigned to
int, hence toInt32) is checked against ZSTD_maxCLevel(); with a second
argument, a non-literal is ILLEGAL_CODEC_PARAMETER, the window-log bounds
are queried from the engine (an error there is ILLEGAL_CODEC_PARAMETER),
and a nonzero window_log outside [lowerBound, upperBound] is
ILLEGAL_CODEC_PARAMETER; otherwise the corresponding constructor runs. -/
def registerCodecZSTD_construct (E : ZstdEngine) (arguments : List Arg) :
    Except ErrorCode CompressionCodecZSTD :=
  if arguments.isEmpty then
    .ok (CompressionCodecZSTD.mk1 ZSTD_DEFAULT_LEVEL)
  else if arguments.length > 2 then
    .error ErrorCode.ILLEGAL_SYNTAX_FOR_CODEC_TYPE
  else
    match arguments[0]? with
    | some (Arg.lit v) =>
      if toInt32 v > E.maxCLevel then
        .error ErrorCode.ILLEGAL_CODEC_PARAMETER
      else if arguments.length > 1 then
        match arguments[1]? with
        | some (Arg.lit w) =>
          match E.windowLogBounds with
          | .error _ => .error ErrorCode.ILLEGAL_CODEC_PARAMETER
          | .ok (lower, upper) =>
            if toInt32 w ≠ 0 ∧ (toInt32 w > upper ∨ toInt32 w < lower) then
              .error ErrorCode.ILLEGAL_CODEC_PARAMETER
            else
              .ok (CompressionCodecZSTD.mk2 (toInt32 v) (toInt32 w))
        | _ => .error ErrorCode.ILLEGAL_CODEC_PARAMETER
      else
        .ok (CompressionCodecZSTD.mk1 (toInt32 v))
    | _ => .error ErrorCode.ILLEGAL_CODEC_PARAMETER

/-- static constexpr QATZSTD_SUPPORTED_MIN_LEVEL = 1. -/
def QATZSTD_SUPPORTED_MIN_LEVEL : Int := 1

/-- static constexpr QATZSTD_SUPPORTED_MAX_LEVEL = 12. -/
def QATZSTD_SUPPORTED_MAX_LEVEL : Int := 12

/-- The hardware-accelerated codec instance (class CompressionCodecQATZSTD):
its own level field; the base-class part is CompressionCodecZSTD(level_). -/
structure CompressionCodecQATZSTD where
  level : Int
deriving DecidableEq

/-- The base-class subobject: the constructor delegates to
CompressionCodecZSTD(level_), the one-argument constructor. -/
def CompressionCodecQATZSTD.toBase (c : CompressionCodecQATZSTD) :
    CompressionCodecZSTD :=
  CompressionCodecZSTD.mk1 c.level

/-- CompressionCodecQATZSTD does not override getMethodByte, so the
inherited CompressionCodecZSTD::getMethodByte runs. -/
def CompressionCodecQATZSTD.getMethodByte (c : CompressionCodecQATZSTD) : Nat :=
  CompressionCodecZSTD.getMethodByte c.toBase

/-- The mutable lazy-initialization state of a QATZSTD instance: the
initialized flag (cctx and sequenceProducerState handles exist exactly when
it is set). -/
structure QATState where
  initialized : Bool
deriving DecidableEq

/-- A freshly constructed instance: initialized(false). -/
def QATState.initial : QATState := ⟨false⟩

/-- An observability event: the LOG_WARNING emitted by the QATZSTD
initialization block, carrying static_cast of the QZSTD_startQatDevice
result to UInt32. -/
inductive LogEvent
  | warning (status : Nat)
deriving DecidableEq

/-- The compression step of CompressionCodecQATZSTD::doCompressData:
ZSTD_compress2 on the cached context -- which has the QAT sequence producer
registered, sequence-producer fallback enabled and the level applied --
with destination capacity ZSTD_compressBound(source_size); throws
CANNOT_COMPRESS on an engine error. -/
def CompressionCodecQATZSTD.qatCompress (E : ZstdEngine)
    (c : CompressionCodecQATZSTD) (source : List Nat) :
    Except ErrorCode (List Nat) :=
  match E.compress2 true c.level false 0 (E.compressBound source.length) source with
  | .ok out => .ok out
  | .error _ => .error ErrorCode.CANNOT_COMPRESS

/-- CompressionCodecQATZSTD::doCompressData as a state transition: when not
yet initialized it creates the context, starts the QAT device (the returned
status flows only into one LOG_WARNING event, cast to UInt32), creates and
registers the sequence producer, enables the fallback, applies the level
and sets initialized; then (in either case) it compresses.  Returns
(result, new state, emitted log events). -/
def CompressionCodecQATZSTD.doCompressData (E : ZstdEngine)
    (qat_start_status : Int) (c : CompressionCodecQATZSTD) (st : QATState)
    (source : List Nat) :
    Except ErrorCode (List Nat) × QATState × List LogEvent :=
  if st.initialized then
    (CompressionCodecQATZSTD.qatCompress E c source, st, [])
  else
    (CompressionCodecQATZSTD.qatCompress E c source, ⟨true⟩,
      [LogEvent.warning ((qat_start_status % 4294967296).toNat)])

/-- A sequence of doCompressData calls on one QATZSTD instance, collecting
the final state and all emitted log events. -/
def CompressionCodecQATZSTD.runCompressCalls (E : ZstdEngine) (status : Int)
    (c : CompressionCodecQATZSTD) (st : QATState)
    (blocks : List (List Nat)) : QATState × List LogEvent :=
  match st, blocks with
  | st, [] => (st, [])
  | st, b :: rest =>
    ((CompressionCodecQATZSTD.runCompressCalls E status c
        (CompressionCodecQATZSTD.doCompressData E status c st b).2.1 rest).1,
      (CompressionCodecQATZSTD.doCompressData E status c st b).2.2 ++
        (CompressionCodecQATZSTD.runCompressCalls E status c
          (CompressionCodecQATZSTD.doCompressData E status c st b).2.1 rest).2)

/-- A resource-release call performed by the QATZSTD destructor. -/
inductive ReleaseOp
  | freeSeqProdState
  | freeCCtx
deriving DecidableEq

/-- CompressionCodecQATZSTD::~CompressionCodecQATZSTD as the trace of
release calls it performs: if initialized, QZSTD_freeSeqProdState on the
offload session handle and then ZSTD_freeCCtx on the engine context, in
that order; nothing otherwise. -/
def CompressionCodecQATZSTD.destructor (st : QATState) : List ReleaseOp :=
  if st.initialized then [ReleaseOp.freeSeqProdState, ReleaseOp.freeCCtx]
  else []

/-- The constructor closure registered for "QATZSTD" in
registerCodecQATZSTD: empty argument list gives the default level; more
than 1 argument is ILLEGAL_SYNTAX_FOR_CODEC_TYPE; a non-literal argument is
ILLEGAL_CODEC_PARAMETER; the level (UInt64 assigned to int, hence toInt32)
is checked against the hardcoded constants QATZSTD_SUPPORTED_MAX_LEVEL and
QATZSTD_SUPPORTED_MIN_LEVEL -- note that, unlike the ZSTD closure, no
engine query is involved. -/
def registerCodecQATZSTD_construct (arguments : List Arg) :
    Except ErrorCode CompressionCodecQATZSTD :=
  if arguments.isEmpty then
    .ok ⟨ZSTD_DEFAULT_LEVEL⟩
  else if arguments.length > 1 then
    .error ErrorCode.ILLEGAL_SYNTAX_FOR_CODEC_TYPE
  else
    match arguments[0]? with
    | some (Arg.lit v) =>
      if toInt32 v > QATZSTD_SUPPORTED_MAX_LEVEL ∨
          toInt32 v < QATZSTD_SUPPORTED_MIN_LEVEL then
        .error ErrorCode.ILLEGAL_CODEC_PARAMETER
      else
        .ok ⟨toInt32 v⟩
    | _ => .error ErrorCode.ILLEGAL_CODEC_PARAMETER

/-- A registry entry: name and optional wire method byte, as passed to
CompressionCodecFactory::registerCompressionCodec. -/
structure CodecRegistration where
  name : String
  method_code : Option Nat
deriving DecidableEq

/-- registerCodecZSTD registers "ZSTD" with method_code =
UInt8(CompressionMethodByte::ZSTD). -/
def zstdRegistration : CodecRegistration :=
  ⟨"ZSTD", some CompressionMethodByte_ZSTD⟩

/-- registerCodecQATZSTD registers "QATZSTD" with an empty method code:
the variant supplies no wire byte of its own. -/
def qatzstdRegistration : CodecRegistration :=
  ⟨"QATZSTD", none⟩

/-- A concrete engine used to evaluate the theorems on closed inputs: it
stores the input verbatim when it fits the destination capacity, uses the
documented bound formula, maximum level 22 and window-log bounds (10, 31). -/
def idEngine : ZstdEngine where
  compressBound := ZSTD_COMPRESSBOUND
  maxCLevel := 22
  compress2 := fun _ _ _ _ cap src =>
    if src.length ≤ cap then .ok src else .error 70
  decompress := fun cap src =>
    if src.length ≤ cap then .ok src else .error 70
  windowLogBounds := .ok (10, 31)

/-- A concrete engine whose window-log bounds query reports an error. -/
def errEngine : ZstdEngine :=
  { idEngine with windowLogBounds := .error 40 }

/-- toInt32 depends only on the argument mod 2^32. -/
theorem toInt32_congr {v w : Nat} (h : v % 4294967296 = w % 4294967296) :
    toInt32 v = toInt32 w := by
  unfold toInt32
  rw [h]

/-- Values below 2^31 pass through toInt32 unchanged. -/
theorem toInt32_small {v : Nat} (h : v < 2147483648) : toInt32 v = (v : Int) := by
  unfold toInt32
  rw [Nat.mod_eq_of_lt (by omega)]
  rw [if_pos h]

theorem toInt32_zero : toInt32 0 = 0 := rfl

/-- The documented bound never shrinks the input size. -/
theorem compressBound_ge (n : Nat) : n ≤ ZSTD_COMPRESSBOUND n := by
  unfold ZSTD_COMPRESSBOUND
  split <;> omega

/-- The concrete evaluation engine satisfies the engine contract. -/
theorem idEngine_sound : idEngine.Sound := by
  refine ⟨?_, ?_, ?_⟩
  · intro sp lvl ldm wlog cap src out h
    simp only [idEngine] at h
    split at h
    · injection h with h2
      subst h2
      assumption
    · exact Except.noConfusion h
  · intro sp lvl ldm wlog src
    refine ⟨src, ?_⟩
    simp only [idEngine]
    rw [if_pos (compressBound_ge src.length)]
  · intro sp lvl ldm wlog cap src out h
    simp only [idEngine] at h ⊢
    split at h
    · injection h with h2
      subst h2
      rw [if_pos le_rfl]
    · exact Except.noConfusion h

/-- Evaluation of the ZSTD closure on a single literal argument. -/
theorem construct_one_lit (E : ZstdEngine) (v : Nat) :
    registerCodecZSTD_construct E [Arg.lit v] =
      if toInt32 v > E.maxCLevel then .error ErrorCode.ILLEGAL_CODEC_PARAMETER
      else .ok (CompressionCodecZSTD.mk1 (toInt32 v)) := rfl

/-- Evaluation of the ZSTD closure on two literal arguments. -/
theorem construct_two_lit (E : ZstdEngine) (v w : Nat) :
    registerCodecZSTD_construct E [Arg.lit v, Arg.lit w] =
      if toInt32 v > E.maxCLevel then .error ErrorCode.ILLEGAL_CODEC_PARAMETER
      else
        match E.windowLogBounds with
        | .error _ => .error ErrorCode.ILLEGAL_CODEC_PARAMETER
        | .ok (lower, upper) =>
          if toInt32 w ≠ 0 ∧ (toInt32 w > upper ∨ toInt32 w < lower) then
            .error ErrorCode.ILLEGAL_CODEC_PARAMETER
          else
            .ok (CompressionCodecZSTD.mk2 (toInt32 v) (toInt32 w)) := rfl

/-- Evaluation of the QATZSTD closure on a single literal argument. -/
theorem qat_construct_one_lit (v : Nat) :
    registerCodecQATZSTD_construct [Arg.lit v] =
      if toInt32 v > QATZSTD_SUPPORTED_MAX_LEVEL ∨
          toInt32 v < QATZSTD_SUPPORTED_MIN_LEVEL then
        .error ErrorCode.ILLEGAL_CODEC_PARAMETER
      else .ok ⟨toInt32 v⟩ := rfl

/-- A successful doCompressData comes from a successful engine call with
capacity compressBound(source size). -/
theorem doCompressData_ok {E : ZstdEngine} {c : CompressionCodecZSTD}
    {B out : List Nat}
    (hc : CompressionCodecZSTD.doCompressData E c B = .ok out) :
    E.compress2 false c.level c.enable_long_range c.window_log
      (E.compressBound B.length) B = .ok out := by
  unfold CompressionCodecZSTD.doCompressData at hc
  split at hc
  · rename_i o heq
    injection hc with h2
    subst h2
    exact heq
  · exact Except.noConfusion hc

/-- A successful qatCompress comes from a successful engine call with
capacity compressBound(source size). -/
theorem qatCompress_ok {E : ZstdEngine} {c : CompressionCodecQATZSTD}
    {B out : List Nat}
    (hc : CompressionCodecQATZSTD.qatCompress E c B = .ok out) :
    E.compress2 true c.level false 0 (E.compressBound B.length) B = .ok out := by
  unfold CompressionCodecQATZSTD.qatCompress at hc
  split at hc
  · rename_i o heq
    injection hc with h2
    subst h2
    exact heq
  · exact Except.noConfusion hc

/-- The result of a QATZSTD compress call is the compression result,
whatever the initialization state and device status. -/
theorem QAT_doCompressData_fst (E : ZstdEngine) (status : Int)
    (c : CompressionCodecQATZSTD) (st : QATState) (source : List Nat) :
    (CompressionCodecQATZSTD.doCompressData E status c st source).1 =
      CompressionCodecQATZSTD.qatCompress E c source := by
  unfold CompressionCodecQATZSTD.doCompressData
  split <;> rfl

/-- Once initialized, a run of compress calls emits no further events. -/
theorem runCompressCalls_initialized (E : ZstdEngine) (status : Int)
    (c : CompressionCodecQATZSTD) :
    ∀ (bs : List (List Nat)) (st : QATState), st.initialized = true →
      (CompressionCodecQATZSTD.runCompressCalls E status c st bs).2 = [] := by
  intro bs
  induction bs with
  | nil =>
    intro st hst
    rfl
  | cons b rest ih =>
    intro st hst
    have hstep : CompressionCodecQATZSTD.doCompressData E status c st b =
        (CompressionCodecQATZSTD.qatCompress E c b, st, []) := by
      unfold CompressionCodecQATZSTD.doCompressData
      rw [if_pos hst]
    simp only [CompressionCodecQATZSTD.runCompressCalls, hstep]
    simpa using ih st hst

/-- C1: for every byte sequence B (of UInt32-representable size), every
registry-constructed codec -- software ZSTD under any accepted parameter
combination, and QATZSTD under any accepted level, in any initialization
state and with any device status -- compression succeeds and decompressing
its output with uncompressedSize = len(B) reproduces B exactly, for every
engine satisfying the documented contract. -/
theorem C1_round_trip (E : ZstdEngine) (hE : E.Sound) :
    (∀ args c, registerCodecZSTD_construct E args = .ok c →
      ∀ B : List Nat, B.length < 4294967296 →
        ∃ out, CompressionCodecZSTD.doCompressData E c B = .ok out ∧
          CompressionCodecZSTD.doDecompressData E out B.length = .ok B) ∧
    (∀ args q, registerCodecQATZSTD_construct args = .ok q →
      ∀ (status : Int) (st : QATState) (B : List Nat), B.length < 4294967296 →
        ∃ out, (CompressionCodecQATZSTD.doCompressData E status q st B).1 = .ok out ∧
          CompressionCodecZSTD.doDecompressData E out B.length = .ok B) := by
  constructor
  · intro args c hc B hB
    obtain ⟨out, hout⟩ :=
      hE.compress_total false c.level c.enable_long_range c.window_log B
    refine ⟨out, ?_, ?_⟩
    · unfold CompressionCodecZSTD.doCompressData
      rw [hout]
    · have hrt := hE.round_trip _ _ _ _ _ _ _ hout
      unfold CompressionCodecZSTD.doDecompressData
      rw [hrt]
  · intro args q hq status st B hB
    obtain ⟨out, hout⟩ := hE.compress_total true q.level false 0 B
    refine ⟨out, ?_, ?_⟩
    · rw [QAT_doCompressData_fst]
      unfold CompressionCodecQATZSTD.qatCompress
      rw [hout]
    · have hrt := hE.round_trip _ _ _ _ _ _ _ hout
      unfold CompressionCodecZSTD.doDecompressData
      rw [hrt]

theorem C1_round_trip_witness :
    ∃ out, CompressionCodecZSTD.doCompressData idEngine
        (CompressionCodecZSTD.mk1 3) [7, 8, 9] = .ok out ∧
      CompressionCodecZSTD.doDecompressData idEngine out 3 = .ok [7, 8, 9] := by
  have h := (C1_round_trip idEngine idEngine_sound).1 [Arg.lit 3]
    (CompressionCodecZSTD.mk1 3) rfl [7, 8, 9] (by decide)
  simpa using h

/-- C2 (counterexample): at input size 2^32 - 1 (a valid UInt32 size) the
engine's documented worst-case bound exceeds 2^32, so the UInt32 return of
getMaxCompressedDataSize truncates it and the claimed equality with the
engine's bound fails. -/
theorem C2_counterexample :
    CompressionCodecZSTD.getMaxCompressedDataSize idEngine
        (CompressionCodecZSTD.mk1 1) 4294967295 ≠
      idEngine.compressBound 4294967295 := by decide

/-- C2 (amended): getMaxCompressedDataSize is a pure total function equal to
the engine's worst-case bound reduced mod 2^32 -- exactly the bound whenever
the bound fits in 32 bits -- and a successful compress writes at most
compressBound(len B) bytes (the untruncated bound, which is the capacity the
source passes to the engine), hence at most getMaxCompressedDataSize(len B)
bytes whenever that bound fits in 32 bits. -/
theorem C2_buffer_bound (E : ZstdEngine) (hE : E.Sound)
    (c : CompressionCodecZSTD) (B out : List Nat)
    (hc : CompressionCodecZSTD.doCompressData E c B = .ok out) :
    out.length ≤ E.compressBound B.length ∧
    (∀ n, CompressionCodecZSTD.getMaxCompressedDataSize E c n =
      E.compressBound n % 4294967296) ∧
    (∀ n, E.compressBound n < 4294967296 →
      CompressionCodecZSTD.getMaxCompressedDataSize E c n = E.compressBound n) ∧
    (E.compressBound B.length < 4294967296 →
      out.length ≤ CompressionCodecZSTD.getMaxCompressedDataSize E c B.length) := by
  have hcomp := doCompressData_ok hc
  have hle := hE.compress_le_cap _ _ _ _ _ _ _ hcomp
  refine ⟨hle, fun n => rfl, ?_, ?_⟩
  · intro n hn
    show E.compressBound n % 4294967296 = E.compressBound n
    exact Nat.mod_eq_of_lt hn
  · intro hfit
    show out.length ≤ E.compressBound B.length % 4294967296
    rw [Nat.mod_eq_of_lt hfit]
    exact hle

theorem C2_buffer_bound_witness :
    ([0, 0] : List Nat).length ≤ idEngine.compressBound 2 ∧
    CompressionCodecZSTD.getMaxCompressedDataSize idEngine
        (CompressionCodecZSTD.mk1 1) 1000 = idEngine.compressBound 1000 := by
  have h := C2_buffer_bound idEngine idEngine_sound
    (CompressionCodecZSTD.mk1 1) [0, 0] [0, 0] rfl
  exact ⟨h.1, h.2.2.1 1000 (by decide)⟩

/-- C3: on a QATZSTD instance, the device-start status never influences the
result handed to the caller (a device failure is never raised as an error);
every call, first or subsequent, still produces output that decompresses
back to the input, via the engine-level software fallback; and a run of
calls starting from a fresh instance emits exactly one warning-level event,
on the first call only, carrying the numeric status code cast to UInt32. -/
theorem C3_fallback (E : ZstdEngine) (hE : E.Sound)
    (c : CompressionCodecQATZSTD) :
    (∀ (status status2 : Int) (st : QATState) (B : List Nat),
      (CompressionCodecQATZSTD.doCompressData E status c st B).1 =
        (CompressionCodecQATZSTD.doCompressData E status2 c st B).1) ∧
    (∀ (status : Int) (st : QATState) (B : List Nat),
      ∃ out, (CompressionCodecQATZSTD.doCompressData E status c st B).1 = .ok out ∧
        CompressionCodecZSTD.doDecompressData E out B.length = .ok B) ∧
    (∀ (status : Int) (B : List Nat) (rest : List (List Nat)),
      (CompressionCodecQATZSTD.runCompressCalls E status c
          QATState.initial (B :: rest)).2 =
        [LogEvent.warning ((status % 4294967296).toNat)]) := by
  refine ⟨?_, ?_, ?_⟩
  · intro status status2 st B
    rw [QAT_doCompressData_fst, QAT_doCompressData_fst]
  · intro status st B
    obtain ⟨out, hout⟩ := hE.compress_total true c.level false 0 B
    refine ⟨out, ?_, ?_⟩
    · rw [QAT_doCompressData_fst]
      unfold CompressionCodecQATZSTD.qatCompress
      rw [hout]
    · have hrt := hE.round_trip _ _ _ _ _ _ _ hout
      unfold CompressionCodecZSTD.doDecompressData
      rw [hrt]
  · intro status B rest
    have hstep : CompressionCodecQATZSTD.doCompressData E status c
        QATState.initial B =
        (CompressionCodecQATZSTD.qatCompress E c B, ⟨true⟩,
          [LogEvent.warning ((status % 4294967296).toNat)]) := by
      unfold CompressionCodecQATZSTD.doCompressData
      rw [if_neg (by simp [QATState.initial])]
    simp only [CompressionCodecQATZSTD.runCompressCalls, hstep]
    simpa using runCompressCalls_initialized E status c rest ⟨true⟩ rfl

theorem C3_fallback_witness :
    (CompressionCodecQATZSTD.runCompressCalls idEngine 1 ⟨3⟩
        QATState.initial [[5], [6]]).2 = [LogEvent.warning 1] :=
  (C3_fallback idEngine idEngine_sound ⟨3⟩).2.2 1 [5] [[6]]

/-- C4 (counterexample): for the QATZSTD codec the accepted maximum is the
hardcoded constant 12, not the engine's maximum: with an engine whose
maximum supported level is 22, constructing QATZSTD with level 22 (the
engine maximum) is rejected, refuting both "level equal to the engine's
maximum succeeds" and "the maximum is queried from the engine". -/
theorem C4_counterexample :
    idEngine.maxCLevel = 22 ∧
    registerCodecQATZSTD_construct [Arg.lit 22] =
      .error ErrorCode.ILLEGAL_CODEC_PARAMETER := ⟨rfl, rfl⟩

/-- C4 (amended): for the ZSTD codec the maximum is queried from the engine
at validation time -- level = engine maximum is accepted and engine maximum
plus one is rejected with ILLEGAL_CODEC_PARAMETER (the kind used for
out-of-range parameters) -- whereas for the QATZSTD codec the bounds are
the hardcoded constants [1, 12], independent of the engine: level 12 is
accepted and level 13 rejected with the same kind. -/
theorem C4_level_boundary (E : ZstdEngine) (h0 : 0 ≤ E.maxCLevel)
    (hs : E.maxCLevel < 2147483647) :
    (registerCodecZSTD_construct E [Arg.lit E.maxCLevel.toNat] =
      .ok (CompressionCodecZSTD.mk1 E.maxCLevel)) ∧
    (registerCodecZSTD_construct E [Arg.lit (E.maxCLevel.toNat + 1)] =
      .error ErrorCode.ILLEGAL_CODEC_PARAMETER) ∧
    (registerCodecQATZSTD_construct [Arg.lit 12] = .ok ⟨12⟩) ∧
    (registerCodecQATZSTD_construct [Arg.lit 13] =
      .error ErrorCode.ILLEGAL_CODEC_PARAMETER) := by
  have hto : toInt32 E.maxCLevel.toNat = E.maxCLevel := by
    rw [toInt32_small (by omega)]
    omega
  have hto1 : toInt32 (E.maxCLevel.toNat + 1) = E.maxCLevel + 1 := by
    rw [toInt32_small (by omega)]
    push_cast
    omega
  refine ⟨?_, ?_, rfl, rfl⟩
  · rw [construct_one_lit, hto, if_neg (lt_irrefl E.maxCLevel)]
  · rw [construct_one_lit, hto1, if_pos (by omega)]

theorem C4_level_boundary_witness :
    registerCodecZSTD_construct idEngine [Arg.lit 22] =
      .ok (CompressionCodecZSTD.mk1 22) ∧
    registerCodecZSTD_construct idEngine [Arg.lit 23] =
      .error ErrorCode.ILLEGAL_CODEC_PARAMETER := by
  have h := C4_level_boundary idEngine (by decide) (by decide)
  exact ⟨h.1, h.2.1⟩

/-- Evaluation of the ZSTD closure on two literal arguments when the engine
reports window-log bounds successfully. -/
theorem construct_two_lit_bounds (E : ZstdEngine) (v w : Nat)
    (lower upper : Int) (hb : E.windowLogBounds = .ok (lower, upper)) :
    registerCodecZSTD_construct E [Arg.lit v, Arg.lit w] =
      if toInt32 v > E.maxCLevel then .error ErrorCode.ILLEGAL_CODEC_PARAMETER
      else if toInt32 w ≠ 0 ∧ (toInt32 w > upper ∨ toInt32 w < lower) then
        .error ErrorCode.ILLEGAL_CODEC_PARAMETER
      else .ok (CompressionCodecZSTD.mk2 (toInt32 v) (toInt32 w)) := by
  rw [construct_two_lit, hb]

/-- C5: with a successful engine bounds report [lower, upper] and a valid
companion level argument, window size 0 is accepted (engine default, giving
window_log 0), any nonzero window value inside the reported range is
accepted, and any nonzero value outside it is rejected with
ILLEGAL_CODEC_PARAMETER. -/
theorem C5_window_validation (E : ZstdEngine) (lower upper : Int)
    (hb : E.windowLogBounds = .ok (lower, upper)) (lvl : Nat)
    (hlvl : toInt32 lvl ≤ E.maxCLevel) (w : Nat) :
    (registerCodecZSTD_construct E [Arg.lit lvl, Arg.lit 0] =
      .ok (CompressionCodecZSTD.mk2 (toInt32 lvl) 0)) ∧
    (toInt32 w ≠ 0 → lower ≤ toInt32 w → toInt32 w ≤ upper →
      registerCodecZSTD_construct E [Arg.lit lvl, Arg.lit w] =
        .ok (CompressionCodecZSTD.mk2 (toInt32 lvl) (toInt32 w))) ∧
    (toInt32 w ≠ 0 → (toInt32 w < lower ∨ upper < toInt32 w) →
      registerCodecZSTD_construct E [Arg.lit lvl, Arg.lit w] =
        .error ErrorCode.ILLEGAL_CODEC_PARAMETER) := by
  have hnl : ¬ toInt32 lvl > E.maxCLevel := not_lt.mpr hlvl
  refine ⟨?_, ?_, ?_⟩
  · rw [construct_two_lit_bounds E lvl 0 lower upper hb, if_neg hnl,
      toInt32_zero, if_neg (by simp)]
  · intro hw hlo hhi
    rw [construct_two_lit_bounds E lvl w lower upper hb, if_neg hnl,
      if_neg (by omega)]
  · intro hw hout
    rw [construct_two_lit_bounds E lvl w lower upper hb, if_neg hnl,
      if_pos (And.intro hw (by omega))]

theorem C5_window_validation_witness :
    registerCodecZSTD_construct idEngine [Arg.lit 1, Arg.lit 0] =
      .ok (CompressionCodecZSTD.mk2 1 0) ∧
    registerCodecZSTD_construct idEngine [Arg.lit 1, Arg.lit 20] =
      .ok (CompressionCodecZSTD.mk2 1 20) ∧
    registerCodecZSTD_construct idEngine [Arg.lit 1, Arg.lit 32] =
      .error ErrorCode.ILLEGAL_CODEC_PARAMETER := by
  have h := C5_window_validation idEngine 10 31 rfl 1 (by decide) 20
  have h2 := C5_window_validation idEngine 10 31 rfl 1 (by decide) 32
  exact ⟨h.1, h.2.1 (by decide) (by decide) (by decide),
    h2.2.2 (by decide) (by decide)⟩

/-- C6 (counterexample): the two rejections the claim groups under one
MalformedConfiguration kind carry two different error kinds in the code --
extra arguments throw ILLEGAL_SYNTAX_FOR_CODEC_TYPE while a non-numeric
argument throws ILLEGAL_CODEC_PARAMETER -- and the latter kind is the very
kind used for out-of-range values (level 23 with engine maximum 22), so the
type rejection is not a kind of its own either. -/
theorem C6_counterexample :
    registerCodecZSTD_construct idEngine [Arg.lit 1, Arg.lit 20, Arg.lit 20] =
      .error ErrorCode.ILLEGAL_SYNTAX_FOR_CODEC_TYPE ∧
    registerCodecZSTD_construct idEngine [Arg.nonLiteral] =
      .error ErrorCode.ILLEGAL_CODEC_PARAMETER ∧
    ErrorCode.ILLEGAL_SYNTAX_FOR_CODEC_TYPE ≠
      ErrorCode.ILLEGAL_CODEC_PARAMETER ∧
    registerCodecZSTD_construct idEngine [Arg.lit 23] =
      .error ErrorCode.ILLEGAL_CODEC_PARAMETER := ⟨rfl, rfl, by decide, rfl⟩

/-- C6 (amended): a configuration with more arguments than expected is
rejected with ILLEGAL_SYNTAX_FOR_CODEC_TYPE and one with a non-numeric
argument with ILLEGAL_CODEC_PARAMETER (two distinct kinds, the latter
shared with range errors); both rejections precede any range check (they
hold for every engine and for arbitrary, even out-of-range, argument
values); and a configuration with zero arguments succeeds with the
documented default level 1. -/
theorem C6_argument_count (E : ZstdEngine) :
    (registerCodecZSTD_construct E [] =
      .ok (CompressionCodecZSTD.mk1 ZSTD_DEFAULT_LEVEL)) ∧
    (registerCodecQATZSTD_construct [] = .ok ⟨ZSTD_DEFAULT_LEVEL⟩) ∧
    (∀ a b c, registerCodecZSTD_construct E [a, b, c] =
      .error ErrorCode.ILLEGAL_SYNTAX_FOR_CODEC_TYPE) ∧
    (∀ a b c, registerCodecQATZSTD_construct [a, b, c] =
      .error ErrorCode.ILLEGAL_SYNTAX_FOR_CODEC_TYPE) ∧
    (∀ a b, registerCodecQATZSTD_construct [a, b] =
      .error ErrorCode.ILLEGAL_SYNTAX_FOR_CODEC_TYPE) ∧
    (registerCodecZSTD_construct E [Arg.nonLiteral] =
      .error ErrorCode.ILLEGAL_CODEC_PARAMETER) ∧
    (∀ b, registerCodecZSTD_construct E [Arg.nonLiteral, b] =
      .error ErrorCode.ILLEGAL_CODEC_PARAMETER) ∧
    (registerCodecQATZSTD_construct [Arg.nonLiteral] =
      .error ErrorCode.ILLEGAL_CODEC_PARAMETER) :=
  ⟨rfl, rfl, fun _ _ _ => rfl, fun _ _ _ => rfl, fun _ _ => rfl, rfl,
    fun _ => rfl, rfl⟩

/-- C7 (counterexample): an engine error while querying the window-size
bounds and a window value outside successfully reported bounds are rejected
with the same error kind ILLEGAL_CODEC_PARAMETER, refuting the claim that
the former is a kind distinct from the latter. -/
theorem C7_counterexample :
    registerCodecZSTD_construct errEngine [Arg.lit 1, Arg.lit 20] =
      .error ErrorCode.ILLEGAL_CODEC_PARAMETER ∧
    registerCodecZSTD_construct idEngine [Arg.lit 1, Arg.lit 32] =
      .error ErrorCode.ILLEGAL_CODEC_PARAMETER := ⟨rfl, rfl⟩

/-- C7 (amended): when the engine reports an error while being queried for
the window-size bounds, construction fails -- but with
ILLEGAL_CODEC_PARAMETER, the same error kind the closure uses for values
outside reported bounds (only the message differs), not a distinct kind. -/
theorem C7_bounds_query_error (E : ZstdEngine) (e : Nat)
    (hb : E.windowLogBounds = .error e) (lvl w : Nat) :
    registerCodecZSTD_construct E [Arg.lit lvl, Arg.lit w] =
      .error ErrorCode.ILLEGAL_CODEC_PARAMETER := by
  rw [construct_two_lit, hb]
  split <;> rfl

theorem C7_bounds_query_error_witness :
    registerCodecZSTD_construct errEngine [Arg.lit 1, Arg.lit 20] =
      .error ErrorCode.ILLEGAL_CODEC_PARAMETER :=
  C7_bounds_query_error errEngine 40 rfl 1 20

/-- C8: destroying a never-initialized QATZSTD instance performs no release
calls (the destructor is total, so it cannot fail); destroying an
initialized instance -- in particular, one on which at least one compress
call ran, whatever the state before it -- releases the offload session
handle and then the engine context, in that order. -/
theorem C8_teardown :
    (CompressionCodecQATZSTD.destructor QATState.initial = []) ∧
    (∀ st : QATState, st.initialized = true →
      CompressionCodecQATZSTD.destructor st =
        [ReleaseOp.freeSeqProdState, ReleaseOp.freeCCtx]) ∧
    (∀ (E : ZstdEngine) (status : Int) (c : CompressionCodecQATZSTD)
        (st : QATState) (B : List Nat),
      CompressionCodecQATZSTD.destructor
          (CompressionCodecQATZSTD.doCompressData E status c st B).2.1 =
        [ReleaseOp.freeSeqProdState, ReleaseOp.freeCCtx]) := by
  refine ⟨rfl, ?_, ?_⟩
  · intro st hst
    unfold CompressionCodecQATZSTD.destructor
    rw [if_pos hst]
  · intro E status c st B
    by_cases hst : st.initialized = true
    · have hstate : (CompressionCodecQATZSTD.doCompressData E status c st B).2.1 = st := by
        unfold CompressionCodecQATZSTD.doCompressData
        rw [if_pos hst]
      rw [hstate]
      unfold CompressionCodecQATZSTD.destructor
      rw [if_pos hst]
    · have hstate : (CompressionCodecQATZSTD.doCompressData E status c st B).2.1 =
          ⟨true⟩ := by
        unfold CompressionCodecQATZSTD.doCompressData
        rw [if_neg hst]
      rw [hstate]
      rfl

theorem C8_teardown_witness :
    CompressionCodecQATZSTD.destructor ⟨true⟩ =
      [ReleaseOp.freeSeqProdState, ReleaseOp.freeCCtx] :=
  C8_teardown.2.1 ⟨true⟩ rfl

/-- C9: each codec argument is extracted as an unsigned 64-bit value and
truncated to a 32-bit signed integer before any check runs, so two argument
values congruent mod 2^32 -- for the ZSTD level, the ZSTD window-log and the
QATZSTD level -- give identical construction results: the same validation
outcome and the same constructed codec parameters. -/
theorem C9_mod32_congruence (E : ZstdEngine) (v v2 w w2 : Nat)
    (hv : v % 4294967296 = v2 % 4294967296)
    (hw : w % 4294967296 = w2 % 4294967296) :
    (registerCodecZSTD_construct E [Arg.lit v] =
      registerCodecZSTD_construct E [Arg.lit v2]) ∧
    (registerCodecZSTD_construct E [Arg.lit v, Arg.lit w] =
      registerCodecZSTD_construct E [Arg.lit v2, Arg.lit w2]) ∧
    (registerCodecQATZSTD_construct [Arg.lit v] =
      registerCodecQATZSTD_construct [Arg.lit v2]) := by
  have h1 : toInt32 v = toInt32 v2 := toInt32_congr hv
  have h2 : toInt32 w = toInt32 w2 := toInt32_congr hw
  refine ⟨?_, ?_, ?_⟩
  · rw [construct_one_lit, construct_one_lit, h1]
  · rw [construct_two_lit, construct_two_lit, h1, h2]
  · rw [qat_construct_one_lit, qat_construct_one_lit, h1]

theorem C9_mod32_congruence_witness :
    registerCodecZSTD_construct idEngine [Arg.lit 4294967298, Arg.lit 4294967296] =
      registerCodecZSTD_construct idEngine [Arg.lit 2, Arg.lit 0] :=
  (C9_mod32_congruence idEngine 4294967298 2 4294967296 0
    (by decide) (by decide)).2.1

/-- C10: every QATZSTD instance's method byte equals every ZSTD instance's
method byte (the registration supplies no method code of its own and the
variant does not override getMethodByte, inherited as the fixed constant),
and a block compressed by the QATZSTD variant decompresses back to the
original through the standard, un-overridden ZSTD decompression path. -/
theorem C10_method_byte (E : ZstdEngine) (hE : E.Sound)
    (q : CompressionCodecQATZSTD) (z : CompressionCodecZSTD) :
    CompressionCodecQATZSTD.getMethodByte q =
      CompressionCodecZSTD.getMethodByte z ∧
    qatzstdRegistration.method_code = none ∧
    zstdRegistration.method_code = some CompressionMethodByte_ZSTD ∧
    (∀ (status : Int) (st : QATState) (B out : List Nat),
      (CompressionCodecQATZSTD.doCompressData E status q st B).1 = .ok out →
      CompressionCodecZSTD.doDecompressData E out B.length = .ok B) := by
  refine ⟨rfl, rfl, rfl, ?_⟩
  intro status st B out h
  rw [QAT_doCompressData_fst] at h
  have hcomp := qatCompress_ok h
  have hrt := hE.round_trip _ _ _ _ _ _ _ hcomp
  unfold CompressionCodecZSTD.doDecompressData
  rw [hrt]

theorem C10_method_byte_witness :
    CompressionCodecQATZSTD.getMethodByte ⟨3⟩ =
      CompressionCodecZSTD.getMethodByte (CompressionCodecZSTD.mk1 1) ∧
    CompressionCodecZSTD.doDecompressData idEngine [5, 6] 2 = .ok [5, 6] := by
  have h := C10_method_byte idEngine idEngine_sound ⟨3⟩
    (CompressionCodecZSTD.mk1 1)
  exact ⟨h.1, h.2.2.2 0 QATState.initial [5, 6] [5, 6] rfl⟩
